import Mathlib

/-!
Verification of the procedural lip-sync performance engine: emotion profiles,
text-to-waveform speech synthesis, emotion-driven audio transformation,
real-time amplitude extraction, and the playback engine's busy/stop behaviour.
The definitions below are a shallow embedding of the TypeScript source
(`useLipSyncEngine` hook and the studio page's variant-profile constructor).
Machine floating point is modelled by exact rationals for the algebraic
bookkeeping (durations, sample counts, clamps) and by real numbers where the
source computes transcendental functions (powers of two, the RMS power curve).
-/

namespace LipSync

/-- Emotion profile record: the five numeric parameters consumed by the
synthesis, transform and animation stages.  Display-only fields (id, label,
accentColor) carry no synthesis effect and are omitted. -/
structure EmotionPreset where
  tempoMultiplier : ℚ
  pitchShift : ℚ
  gestureIntensity : ℚ
  mouthIntensity : ℚ
  browLift : ℚ
deriving DecidableEq, Repr

/-- Clamp on rationals, mirroring the source helper
`clamp(value, min, max) = Math.min(max, Math.max(min, value))`. -/
def clampQ (v lo hi : ℚ) : ℚ := min hi (max lo v)

/-- Clamp on reals, same shape as `clampQ`, for the formulas the source
evaluates with transcendental functions. -/
def clampR (v lo hi : ℝ) : ℝ := min hi (max lo v)

/-- Base duration of one synthesized character in seconds
(source constant `BASE_CHAR_DURATION = 0.14`). -/
def BASE_CHAR_DURATION : ℚ := 14/100

/-- Trailing silence padding in seconds (source constant `SILENCE_PADDING = 0.28`). -/
def SILENCE_PADDING : ℚ := 28/100

/-- Consonant noise floor (source constant `CONSONANT_TEXTURE = 0.23`). -/
def CONSONANT_TEXTURE : ℚ := 23/100

/-- Whitespace class of the JavaScript regular expression `\s`, used by the
normalization `text.replace(/\s+/g, " ").trim()`. -/
def jsWhitespace (c : Char) : Bool :=
  (c == ' ') || (c == '\t') || (c == '\n') || (c == '\r') ||
  (c == '\x0b') || (c == '\x0c') || (c == ' ') || (c == ' ') ||
  (c == ' ') || (c == ' ') || (c == ' ') || (c == ' ') ||
  (c == ' ') || (c == ' ') || (c == ' ') || (c == ' ') ||
  (c == ' ') || (c == ' ') || (c == ' ') || (c == ' ') ||
  (c == ' ') || (c == ' ') || (c == ' ') || (c == '　') ||
  (c == '﻿')

/-- Collapse every maximal run of whitespace into a single space, the effect of
`text.replace(/\s+/g, " ")`.  The flag records whether the previous character
was part of a whitespace run already replaced. -/
def collapseAux : Bool → List Char → List Char
  | _, [] => []
  | inRun, c :: rest =>
    if jsWhitespace c then
      if inRun then collapseAux true rest else ' ' :: collapseAux true rest
    else c :: collapseAux false rest

/-- Whitespace collapsing entry point. -/
def collapseWS (l : List Char) : List Char := collapseAux false l

/-- Remove leading and trailing whitespace, the effect of `.trim()`. -/
def trimChars (l : List Char) : List Char :=
  ((l.dropWhile jsWhitespace).reverse.dropWhile jsWhitespace).reverse

/-- Whitespace normalization performed at the top of `synthesiseText`:
collapse runs to single spaces, then trim. -/
def normalizeText (l : List Char) : List Char := trimChars (collapseWS l)

/-- Split the normalized content on single spaces, the effect of
`content.split(" ")`. -/
def splitOnSpace (l : List Char) : List (List Char) :=
  (l.splitOn ' ')

/-- Vowel test of `synthesiseText`: membership of the lower-cased character in
the `VOWEL_FREQ` table. -/
def isVowel (c : Char) : Bool :=
  let l := c.toLower
  (l == 'a') || (l == 'e') || (l == 'i') || (l == 'o') || (l == 'u') || (l == 'y')

/-- Vowel base-frequency table `VOWEL_FREQ` from the source. -/
def vowelFreq (c : Char) : ℚ :=
  if c = 'a' then 210
  else if c = 'e' then 230
  else if c = 'i' then 260
  else if c = 'o' then 190
  else if c = 'u' then 170
  else if c = 'y' then 240
  else 0

/-- Per-character base frequency: vowels use the lookup table, consonants
derive `140 + (charCode mod 25) * 4` from the lower-cased character code. -/
def baseFreq (c : Char) : ℚ :=
  let l := c.toLower
  if isVowel c then vowelFreq l else 140 + ((l.toNat % 25 : ℕ) : ℚ) * 4

/-- Effective tempo used by the synthesizer:
`clamp(emotion.tempoMultiplier, 0.65, 1.45)`. -/
def tempoOf (e : EmotionPreset) : ℚ := clampQ e.tempoMultiplier (65/100) (145/100)

/-- Per-character duration `BASE_CHAR_DURATION / tempo` in seconds. -/
def charDurationOf (e : EmotionPreset) : ℚ := BASE_CHAR_DURATION / tempoOf e

/-- Synthesized pitch of one character:
`baseFreq * 2^(pitchShift/12) * (isVowel ? 1 : 0.92)`. -/
noncomputable def freqSynth (c : Char) (e : EmotionPreset) : ℝ :=
  (baseFreq c : ℝ) * (2 : ℝ) ^ ((e.pitchShift : ℝ) / 12) *
    (if isVowel c then (1 : ℝ) else 92/100)

/-- Per-character peak amplitude:
vowels `clamp(0.6 + mouthIntensity*0.35, 0.05, 0.98)`,
consonants `clamp(0.35 + mouthIntensity*0.2, 0.05, 0.98)`. -/
def amplitudeOf (e : EmotionPreset) (vowel : Bool) : ℚ :=
  clampQ (if vowel then 60/100 + e.mouthIntensity * (35/100)
          else 35/100 + e.mouthIntensity * (20/100)) (5/100) (98/100)

/-- Brightness coefficient of the vowel harmonic:
`clamp(0.55 + browLift*0.2, 0.1, 1.2)`. -/
def brightnessOf (e : EmotionPreset) : ℚ :=
  clampQ (55/100 + e.browLift * (20/100)) (10/100) (120/100)

/-- Consonant noise amplitude:
`clamp(CONSONANT_TEXTURE + gestureIntensity*0.15, 0.12, 0.45)`. -/
def consonantNoiseOf (e : EmotionPreset) : ℚ :=
  clampQ (CONSONANT_TEXTURE + e.gestureIntensity * (15/100)) (12/100) (45/100)

/-- Audio clip metadata produced by synthesis or transformation: sample count,
sample rate, channel count and duration in seconds. -/
structure LipSyncClip where
  length : ℕ
  sampleRate : ℕ
  channels : ℕ
  duration : ℚ
deriving DecidableEq, Repr

/-- Total clip duration computed by `synthesiseText`:
`totalChars * charDuration + SILENCE_PADDING` over the normalized content. -/
def totalDurationOf (e : EmotionPreset) (content : List Char) : ℚ :=
  (content.length : ℚ) * charDurationOf e + SILENCE_PADDING

/-- Speech synthesis, clip level: `synthesiseText` returns null when the
normalized text is empty, otherwise a one-channel buffer of
`ceil(totalDuration * sampleRate)` samples with the computed duration. -/
def synthesiseText (sr : ℕ) (text : List Char) (e : EmotionPreset) :
    Option LipSyncClip :=
  let content := normalizeText text
  if content = [] then none
  else
    let totalDuration := totalDurationOf e content
    some { length := (Int.ceil (totalDuration * (sr : ℚ))).toNat
           sampleRate := sr
           channels := 1
           duration := totalDuration }

/-- Samples written for one character in `synthesiseText`: the sample loop
runs `for (i = 0; i < charSamples && cursor + i < totalSamples; i++)`, so
indices past the buffer end are skipped rather than wrapped. -/
def charWrites (cursor charSamples totalSamples : ℕ) : List ℕ :=
  ((List.range charSamples).map (fun i => cursor + i)).filter
    (fun idx => idx < totalSamples)

/-- Cursor trajectory of the character loop of `synthesiseText`: each
character of a word starts `charSamples` after the previous one, and after
every word the cursor additionally advances by the inter-word gap.  Returns
the list of character start positions and the final cursor. -/
def runWords (charSamples gap : ℕ) : ℕ → List (List Char) → List ℕ × ℕ
  | cursor, [] => ([], cursor)
  | cursor, w :: ws =>
    let starts := (List.range w.length).map (fun k => cursor + k * charSamples)
    let next := runWords charSamples gap (cursor + w.length * charSamples + gap) ws
    (starts ++ next.1, next.2)

/-- Number of samples of one character: `floor(charDuration * sampleRate)`. -/
def charSamplesOf (e : EmotionPreset) (sr : ℕ) : ℕ :=
  (Int.floor (charDurationOf e * (sr : ℚ))).toNat

/-- Samples of the gap appended after each word:
`floor(charDuration * sampleRate * 0.6)`. -/
def gapSamplesOf (e : EmotionPreset) (sr : ℕ) : ℕ :=
  (Int.floor (charDurationOf e * (sr : ℚ) * (6/10))).toNat

/-- Total sample count of the synthesis buffer:
`ceil(totalDuration * sampleRate)`. -/
def totalSamplesOf (e : EmotionPreset) (sr : ℕ) (content : List Char) : ℕ :=
  (Int.ceil (totalDurationOf e content * (sr : ℚ))).toNat

/-- Start positions (in samples) of every synthesized character of the text,
in source order, as the write cursor of `synthesiseText` produces them. -/
def charStarts (sr : ℕ) (text : List Char) (e : EmotionPreset) : List ℕ :=
  let content := normalizeText text
  (runWords (charSamplesOf e sr) (gapSamplesOf e sr) 0 (splitOnSpace content)).1

/-- Final value of the write cursor of `synthesiseText` after all words. -/
def finalCursor (sr : ℕ) (text : List Char) (e : EmotionPreset) : ℕ :=
  let content := normalizeText text
  (runWords (charSamplesOf e sr) (gapSamplesOf e sr) 0 (splitOnSpace content)).2

/-- All sample indices written by `synthesiseText` for the given text. -/
def writtenIndices (sr : ℕ) (text : List Char) (e : EmotionPreset) : List ℕ :=
  let content := normalizeText text
  (charStarts sr text e).flatMap
    (fun start => charWrites start (charSamplesOf e sr) (totalSamplesOf e sr content))

/-- Cursor trajectory the specification text describes instead: a gap after
every single character, so each character advances the cursor by
`charSamples + gap`.  Kept separate from `runWords` (the source behaviour)
for refinement comparison. -/
def runWordsPerCharGap (charSamples gap : ℕ) : ℕ → List (List Char) → List ℕ × ℕ
  | cursor, [] => ([], cursor)
  | cursor, w :: ws =>
    let starts := (List.range w.length).map
      (fun k => cursor + k * (charSamples + gap))
    let next := runWordsPerCharGap charSamples gap
      (cursor + w.length * (charSamples + gap)) ws
    (starts ++ next.1, next.2)

/-- Character start positions under the specification's per-character-gap
reading, for comparison with `charStarts`. -/
def charStartsPerCharGap (sr : ℕ) (text : List Char) (e : EmotionPreset) : List ℕ :=
  let content := normalizeText text
  (runWordsPerCharGap (charSamplesOf e sr) (gapSamplesOf e sr) 0 (splitOnSpace content)).1

/-!  Audio transformation (`transformBufferWithEmotion`). -/

/-- Decoding failure of the uploaded byte sequence: `decodeAudioData`
rejects when the bytes are not a supported audio container or codec. -/
inductive DecodeError where
  | unsupportedFormat : DecodeError
  | corruptData : DecodeError
deriving DecidableEq, Repr

/-- Decoded PCM metadata of an uploaded file (`AudioBuffer`): sample count
per channel, sample rate and channel count. -/
structure DecodedAudio where
  length : ℕ
  sampleRate : ℕ
  numberOfChannels : ℕ
deriving DecidableEq, Repr

/-- Offline render buffer length chosen by `transformBufferWithEmotion`:
`Math.floor(decoded.length / tempo)`. -/
def offlineLength (origLen : ℕ) (e : EmotionPreset) : ℕ :=
  (Int.floor ((origLen : ℚ) / tempoOf e)).toNat

/-- Playback rate applied to the decoded source inside the offline render:
`pitchRatio / tempo` with `pitchRatio = 2^(pitchShift/12)`. -/
noncomputable def playbackRateOf (e : EmotionPreset) : ℝ :=
  (2 : ℝ) ^ ((e.pitchShift : ℝ) / 12) / (tempoOf e : ℝ)

/-- Gain applied in the offline render:
`clamp(1 + gestureIntensity*0.1, 0.5, 1.4)`. -/
def transformGainOf (e : EmotionPreset) : ℚ :=
  clampQ (1 + e.gestureIntensity * (10/100)) (50/100) (140/100)

/-- Audio transformation at clip level: decode the bytes (propagating a
decode failure), then render offline into a fresh buffer of
`floor(decoded.length / tempo)` samples at the decoded sample rate and
channel count; the clip duration is rendered length over rendered rate. -/
def transformBufferWithEmotion
    (decode : List ℕ → Except DecodeError DecodedAudio)
    (bytes : List ℕ) (e : EmotionPreset) : Except DecodeError LipSyncClip := do
  let decoded ← decode bytes
  let renderedLength := offlineLength decoded.length e
  pure { length := renderedLength
         sampleRate := decoded.sampleRate
         channels := decoded.numberOfChannels
         duration := (renderedLength : ℚ) / (decoded.sampleRate : ℚ) }

/-!  Playback engine state (`useLipSyncEngine`). -/

/-- Mutable state of the lip-sync engine hook: busy flag, whether the
animation-frame analyser loop is scheduled, whether a buffer source is
playing, the trace of amplitude callback values (most recent first), and the
last clip retained for replay. -/
structure EngineState where
  busy : Bool
  rafActive : Bool
  sourceActive : Bool
  emitted : List ℚ
  lastClip : Option LipSyncClip
deriving DecidableEq, Repr

/-- Initial engine state: idle, no loop, no source, nothing emitted. -/
def initialEngine : EngineState :=
  { busy := false, rafActive := false, sourceActive := false,
    emitted := [], lastClip := none }

/-- Cancel the analyser animation-frame loop (`cancelAnalyser`). -/
def cancelAnalyser (s : EngineState) : EngineState := { s with rafActive := false }

/-- Report one excitation value through the `onAmplitude` callback. -/
def emitAmplitude (v : ℚ) (s : EngineState) : EngineState :=
  { s with emitted := v :: s.emitted }

/-- The engine's `stop`: cancel the analyser loop, emit a final amplitude of
zero, then stop and disconnect the active source. -/
def stopEngine (s : EngineState) : EngineState :=
  let s1 := emitAmplitude 0 (cancelAnalyser s)
  { s1 with sourceActive := false }

/-- The `onended` handler installed by `playClip`: cancel the analyser loop
and emit a final amplitude of zero when playback finishes naturally. -/
def onSourceEnded (s : EngineState) : EngineState :=
  emitAmplitude 0 (cancelAnalyser s)

/-- One analyser-loop tick reporting excitation `v`: it only runs while an
animation frame is scheduled, and reschedules itself. -/
def analyserStep (v : ℚ) (s : EngineState) : EngineState :=
  if s.rafActive then emitAmplitude v s else s

/-- The engine's `playClip`: a null clip is ignored; otherwise stop the
previous playback, start a new source, start the analyser loop and retain
the clip for replay. -/
def playClip (s : EngineState) (clip : Option LipSyncClip) : EngineState :=
  match clip with
  | none => s
  | some c =>
    let s1 := stopEngine s
    { s1 with sourceActive := true, rafActive := true, lastClip := some c }

/-- Outcome of the body of a `speakText` or `playFile` call, abstracting the
work done inside the `try` block: it may throw, or produce a clip or null. -/
abbrev SpeakOutcome (ε : Type) := Except ε (Option LipSyncClip)

/-- The engine's `speakText`: return null without touching state when no
audio context is available; otherwise set `isBusy`, run synthesis and
playback, and clear `isBusy` in the `finally` on success and failure alike. -/
def speakTextRun {ε : Type} (s : EngineState) (hasContext : Bool)
    (body : SpeakOutcome ε) : SpeakOutcome ε × EngineState :=
  if hasContext then
    let s1 := { s with busy := true }
    match body with
    | Except.error err => (Except.error err, { s1 with busy := false })
    | Except.ok clip => (Except.ok clip, { playClip s1 clip with busy := false })
  else (Except.ok none, s)

/-- The engine's `playFile`: same busy discipline as `speakTextRun`, with the
body outcome produced by `transformBufferWithEmotion` (so a decode rejection
propagates out of the call). -/
def playFileRun (s : EngineState) (hasContext : Bool)
    (result : Except DecodeError LipSyncClip) :
    Except DecodeError (Option LipSyncClip) × EngineState :=
  if hasContext then
    let s1 := { s with busy := true }
    match result with
    | Except.error err => (Except.error err, { s1 with busy := false })
    | Except.ok clip =>
      (Except.ok (some clip), { playClip s1 (some clip) with busy := false })
  else (Except.ok none, s)

/-!  Amplitude extraction (`startAnalyserLoop`) and the variant-profile
constructor (`createVariantEmotion`). -/

/-- Amplitude mapping of the analyser loop:
`clamp((rms * 4.2)^1.2, 0, 1)`. -/
noncomputable def extract (rms : ℝ) : ℝ :=
  clampR ((rms * (42/10)) ^ ((12/10 : ℝ))) 0 1

/-- Root-mean-square of one sampled time-domain window. -/
noncomputable def rmsOf (data : List ℝ) : ℝ :=
  Real.sqrt ((data.map (fun x => x * x)).sum / (data.length : ℝ))

/-- Excitation value one analyser tick reports for a sampled window: the sum
of squares over the window length under a square root, then the nonlinear
gain and power curve, clamped to the unit interval. -/
noncomputable def analyserTickValue (data : List ℝ) : ℝ :=
  clampR ((Real.sqrt ((data.map (fun x => x * x)).sum / (data.length : ℝ))
    * (42/10)) ^ ((12/10 : ℝ))) 0 1

/-- Derived per-utterance profile (`createVariantEmotion` in the studio
page): each numeric field is jittered with a fresh random draw and clamped to
its documented range.  The five `r` arguments stand for the successive
`Math.random()` results, each in `[0, 1)`. -/
def createVariantEmotion (preset : EmotionPreset) (r1 r2 r3 r4 r5 : ℚ) :
    EmotionPreset :=
  { tempoMultiplier :=
      clampQ (preset.tempoMultiplier * (92/100 + r1 * (16/100))) (65/100) (145/100)
    pitchShift := clampQ (preset.pitchShift + (r2 - 1/2) * (16/10)) (-6) 6
    gestureIntensity :=
      clampQ (preset.gestureIntensity * (92/100 + r3 * (16/100))) (35/100) (140/100)
    mouthIntensity :=
      clampQ (preset.mouthIntensity * (92/100 + r4 * (16/100))) (40/100) (140/100)
    browLift := clampQ (preset.browLift + (r5 - 1/2) * (40/100)) (-(60/100)) (120/100) }

/-!  Shared lemmas and concrete fixtures. -/

/-- Clamping a value already inside the range returns it unchanged. -/
theorem clampQ_of_mem {v lo hi : ℚ} (h1 : lo ≤ v) (h2 : v ≤ hi) :
    clampQ v lo hi = v := by
  unfold clampQ
  rw [max_eq_right h1, min_eq_right h2]

/-- Clamping lands in the range whenever the range is nonempty. -/
theorem clampQ_mem {lo hi : ℚ} (v : ℚ) (h : lo ≤ hi) :
    lo ≤ clampQ v lo hi ∧ clampQ v lo hi ≤ hi := by
  refine ⟨le_min h (le_max_left lo v), min_le_left hi _⟩

/-- The effective tempo always lies in the documented range. -/
theorem tempoOf_mem (e : EmotionPreset) :
    65/100 ≤ tempoOf e ∧ tempoOf e ≤ 145/100 :=
  clampQ_mem e.tempoMultiplier (by norm_num)

/-- The effective tempo is positive. -/
theorem tempoOf_pos (e : EmotionPreset) : 0 < tempoOf e :=
  lt_of_lt_of_le (by norm_num) (tempoOf_mem e).1

/-- The default neutral profile used by the scenario tests. -/
def defaultPreset : EmotionPreset :=
  { tempoMultiplier := 1, pitchShift := 0, gestureIntensity := 1,
    mouthIntensity := 1, browLift := 0 }

/-- The scenario text of the specification, as a character list. -/
def hiThere : List Char := ['H', 'i', ' ', 't', 'h', 'e', 'r', 'e', '.']

/-- A two-character single-word text used to compare gap placements. -/
def abText : List Char := ['a', 'b']

/-- Profile with tempo 1.3, where floor and ceiling of the offline render
length disagree. -/
def presetTempo13 : EmotionPreset :=
  { tempoMultiplier := 13/10, pitchShift := 0, gestureIntensity := 1,
    mouthIntensity := 1, browLift := 0 }

/-- Profile with an out-of-range brow lift, exercising the unclamped
consumption of `browLift` in the synthesizer. -/
def presetBrow5 : EmotionPreset :=
  { tempoMultiplier := 1, pitchShift := 0, gestureIntensity := 1,
    mouthIntensity := 1, browLift := 5 }

/-- Tempo of the default profile evaluates to one. -/
theorem tempoOf_default : tempoOf defaultPreset = 1 := by
  unfold tempoOf defaultPreset
  exact clampQ_of_mem (by norm_num) (by norm_num)

/-- Character duration of the default profile is the base constant. -/
theorem charDurationOf_default : charDurationOf defaultPreset = 14/100 := by
  rw [charDurationOf, tempoOf_default, BASE_CHAR_DURATION]
  norm_num

/-- At 44.1 kHz under the default profile one character spans 6174 samples. -/
theorem charSamplesOf_default : charSamplesOf defaultPreset 44100 = 6174 := by
  rw [charSamplesOf, charDurationOf_default]
  norm_num
  decide

/-- At 44.1 kHz under the default profile the inter-word gap is 3704 samples. -/
theorem gapSamplesOf_default : gapSamplesOf defaultPreset 44100 = 3704 := by
  rw [gapSamplesOf, charDurationOf_default]
  norm_num [Int.floor_eq_iff]
  decide

/-- Every character's base frequency is positive: the vowel table holds only
positive entries and the consonant formula starts at 140. -/
theorem baseFreq_pos (c : Char) : 0 < baseFreq c := by
  unfold baseFreq
  by_cases h : isVowel c
  · rw [if_pos h]
    unfold isVowel at h
    simp only [Bool.or_eq_true, beq_iff_eq] at h
    rcases h with ((((h | h) | h) | h) | h) | h <;>
      rw [h] <;> simp [vowelFreq]
  · rw [if_neg h]
    positivity

/-- Final cursor of the character loop: every character advances the cursor
by `charSamples` and every word additionally by the gap. -/
theorem runWords_final (cs gap : ℕ) :
    ∀ (c : ℕ) (ws : List (List Char)),
      (runWords cs gap c ws).2 =
        c + (ws.map List.length).sum * cs + ws.length * gap := by
  intro c ws
  induction ws generalizing c with
  | nil => simp [runWords]
  | cons w ws ih =>
    rw [runWords]
    rw [ih]
    simp only [List.map_cons, List.sum_cons, List.length_cons]
    ring

/-- Character starts of a single word are laid out back to back at
`charSamples` intervals, with no gap between consecutive characters. -/
theorem runWords_single (cs gap c : ℕ) (w : List Char) :
    (runWords cs gap c [w]).1 =
      (List.range w.length).map (fun k => c + k * cs) := by
  simp [runWords]

/-!  Claim theorems. -/

/-- C1: for every text that is non-empty after whitespace normalization,
`synthesiseText` returns a clip whose duration is
`totalChars * (baseCharDuration / clamp(tempoMultiplier, 0.65, 1.45)) + 0.28`
with `totalChars` the normalized length (spaces included); in particular the
scenario text under the default profile yields a clip of 1.54 seconds. -/
theorem C1_synthesis_duration :
    (∀ (sr : ℕ) (e : EmotionPreset) (text : List Char),
        normalizeText text ≠ [] →
        (synthesiseText sr text e).map LipSyncClip.duration =
          some (((normalizeText text).length : ℚ) *
            (BASE_CHAR_DURATION / clampQ e.tempoMultiplier (65/100) (145/100)) +
              SILENCE_PADDING)) ∧
    (synthesiseText 44100 hiThere defaultPreset).map LipSyncClip.duration =
      some (154/100) := by
  have main : ∀ (sr : ℕ) (e : EmotionPreset) (text : List Char),
      normalizeText text ≠ [] →
      (synthesiseText sr text e).map LipSyncClip.duration =
        some (((normalizeText text).length : ℚ) *
          (BASE_CHAR_DURATION / clampQ e.tempoMultiplier (65/100) (145/100)) +
            SILENCE_PADDING) := by
    intro sr e text h
    unfold synthesiseText
    rw [if_neg h]
    rfl
  refine ⟨main, ?_⟩
  rw [main 44100 defaultPreset hiThere (by decide)]
  have h1 : normalizeText hiThere = hiThere := by decide
  have h2 : clampQ defaultPreset.tempoMultiplier (65/100) (145/100) = 1 :=
    tempoOf_default
  rw [h1, h2]
  have h3 : ((hiThere.length : ℕ) : ℚ) = 9 := by
    rw [show hiThere.length = 9 from rfl]
    norm_num
  rw [h3, BASE_CHAR_DURATION, SILENCE_PADDING]
  norm_num

/-- Witness for C1 at the scenario input: the text normalizes to a non-empty
string and the duration formula is exercised there. -/
theorem C1_witness :
    normalizeText hiThere ≠ [] ∧
    (synthesiseText 44100 hiThere defaultPreset).map LipSyncClip.duration =
      some (((normalizeText hiThere).length : ℚ) *
        (BASE_CHAR_DURATION /
          clampQ defaultPreset.tempoMultiplier (65/100) (145/100)) +
          SILENCE_PADDING) :=
  ⟨by decide, C1_synthesis_duration.1 44100 defaultPreset hiThere (by decide)⟩

/-- C2: `synthesiseText` returns the null sentinel exactly when the text is
empty after collapsing whitespace runs and trimming; no buffer is produced in
that case and no error is raised. -/
theorem C2_empty_sentinel (sr : ℕ) (text : List Char) (e : EmotionPreset) :
    synthesiseText sr text e = none ↔ normalizeText text = [] := by
  unfold synthesiseText
  by_cases h : normalizeText text = []
  · simp [h]
  · simp [h]

/-- C3: the synthesized character frequency
`baseFreq * 2^(pitchShift/12) * (vowel ? 1 : 0.92)` is strictly increasing in
the profile's pitch shift, for vowels and consonants alike. -/
theorem C3_pitch_monotone (c : Char) (e1 e2 : EmotionPreset)
    (h : e1.pitchShift < e2.pitchShift) :
    freqSynth c e1 < freqSynth c e2 := by
  unfold freqSynth
  have hb : (0 : ℝ) < (baseFreq c : ℝ) := by exact_mod_cast baseFreq_pos c
  have hexp : ((e1.pitchShift : ℝ)) / 12 < ((e2.pitchShift : ℝ)) / 12 := by
    have hc : (e1.pitchShift : ℝ) < (e2.pitchShift : ℝ) := by exact_mod_cast h
    linarith
  have hr : (2 : ℝ) ^ ((e1.pitchShift : ℝ) / 12) <
      (2 : ℝ) ^ ((e2.pitchShift : ℝ) / 12) :=
    (Real.rpow_lt_rpow_left_iff (by norm_num)).mpr hexp
  have hk : (0 : ℝ) < (if isVowel c then (1 : ℝ) else 92/100) := by
    split <;> norm_num
  exact mul_lt_mul_of_pos_right (mul_lt_mul_of_pos_left hr hb) hk

/-- Profile identical to the default except for one semitone of pitch shift. -/
def presetPitch1 : EmotionPreset :=
  { tempoMultiplier := 1, pitchShift := 1, gestureIntensity := 1,
    mouthIntensity := 1, browLift := 0 }

/-- Witness for C3 on a vowel and on a consonant, raising the pitch shift
from zero to one semitone. -/
theorem C3_witness :
    freqSynth 'a' defaultPreset < freqSynth 'a' presetPitch1 ∧
    freqSynth 'b' defaultPreset < freqSynth 'b' presetPitch1 :=
  ⟨C3_pitch_monotone 'a' defaultPreset presetPitch1
      (by norm_num [defaultPreset, presetPitch1]),
   C3_pitch_monotone 'b' defaultPreset presetPitch1
      (by norm_num [defaultPreset, presetPitch1])⟩

/-- C4: the amplitude extraction `clamp((rms*4.2)^1.2, 0, 1)` stays in the
unit interval for nonnegative RMS, is monotone non-decreasing, and is exactly
the value each analyser tick reports for the RMS of its sampled window. -/
theorem C4_extract_bounded_monotone :
    (∀ rms : ℝ, 0 ≤ rms → 0 ≤ extract rms ∧ extract rms ≤ 1) ∧
    (∀ r1 r2 : ℝ, 0 ≤ r1 → r1 < r2 → extract r1 ≤ extract r2) ∧
    (∀ data : List ℝ, analyserTickValue data = extract (rmsOf data)) := by
  refine ⟨?_, ?_, fun data => rfl⟩
  · intro rms _
    unfold extract clampR
    exact ⟨le_min (by norm_num) (le_max_left 0 _), min_le_left 1 _⟩
  · intro r1 r2 h0 h12
    unfold extract clampR
    have key : (r1 * (42/10)) ^ ((12/10 : ℝ)) ≤ (r2 * (42/10)) ^ ((12/10 : ℝ)) :=
      Real.rpow_le_rpow (by positivity) (by nlinarith) (by norm_num)
    exact min_le_min le_rfl (max_le_max le_rfl key)

/-- Witness for C4 at the concrete window RMS values zero and one. -/
theorem C4_witness :
    (0 ≤ extract 0 ∧ extract 0 ≤ 1) ∧ extract 0 ≤ extract 1 :=
  ⟨C4_extract_bounded_monotone.1 0 le_rfl,
   C4_extract_bounded_monotone.2.1 0 1 le_rfl one_pos⟩

/-- C5 counterexample: the offline render buffer is NOT
`ceil(originalLength / tempo)` samples long — at 100 source samples and tempo
1.3 the source allocates `floor(100/1.3) = 76` samples where the claim's
ceiling would give 77. -/
theorem C5_counterexample :
    offlineLength 100 presetTempo13 ≠
      (Int.ceil ((100 : ℚ) / tempoOf presetTempo13)).toNat := by
  have ht : tempoOf presetTempo13 = 13/10 := by
    unfold tempoOf presetTempo13
    exact clampQ_of_mem (by norm_num) (by norm_num)
  unfold offlineLength
  rw [ht]
  have hf : Int.floor (((100 : ℕ) : ℚ) / (13/10)) = 76 := by
    norm_num [Int.floor_eq_iff]
  have hc : Int.ceil ((100 : ℚ) / (13/10)) = 77 := by
    norm_num [Int.ceil_eq_iff]
  rw [hf, hc]
  decide

/-- C5 (amended): the offline render buffer holds
`floor(originalLength / clamp(tempoMultiplier, 0.65, 1.45))` samples at the
original sample rate and channel count, the source plays through it at rate
`2^(pitchShift/12) / tempo`, and the returned clip's duration is rendered
sample count over rendered sample rate. -/
theorem C5_transform_shape
    (decode : List ℕ → Except DecodeError DecodedAudio) (bytes : List ℕ)
    (e : EmotionPreset) (d : DecodedAudio) (h : decode bytes = Except.ok d) :
    transformBufferWithEmotion decode bytes e = Except.ok
      { length := offlineLength d.length e
        sampleRate := d.sampleRate
        channels := d.numberOfChannels
        duration := (offlineLength d.length e : ℚ) / (d.sampleRate : ℚ) } ∧
    (offlineLength d.length e : ℤ) = Int.floor ((d.length : ℚ) / tempoOf e) ∧
    playbackRateOf e = (2 : ℝ) ^ ((e.pitchShift : ℝ) / 12) / (tempoOf e : ℝ) := by
  refine ⟨?_, ?_, rfl⟩
  · unfold transformBufferWithEmotion
    rw [h]
    rfl
  · unfold offlineLength
    exact Int.toNat_of_nonneg (Int.floor_nonneg.mpr
      (div_nonneg (Nat.cast_nonneg _) (le_of_lt (tempoOf_pos e))))

/-- A decode stub returning a fixed 100-sample stereo buffer at 44.1 kHz. -/
def okDecode : List ℕ → Except DecodeError DecodedAudio :=
  fun _ => Except.ok { length := 100, sampleRate := 44100, numberOfChannels := 2 }

/-- Witness for C5 (amended) on the stub-decoded buffer under tempo 1.3. -/
theorem C5_witness :
    transformBufferWithEmotion okDecode [] presetTempo13 = Except.ok
      { length := offlineLength 100 presetTempo13
        sampleRate := 44100
        channels := 2
        duration := (offlineLength 100 presetTempo13 : ℚ) / (44100 : ℚ) } ∧
    (offlineLength 100 presetTempo13 : ℤ) =
      Int.floor ((100 : ℚ) / tempoOf presetTempo13) ∧
    playbackRateOf presetTempo13 =
      (2 : ℝ) ^ ((presetTempo13.pitchShift : ℝ) / 12) /
        (tempoOf presetTempo13 : ℝ) :=
  C5_transform_shape okDecode []
    presetTempo13 { length := 100, sampleRate := 44100, numberOfChannels := 2 } rfl

/-- C6: when decoding the uploaded bytes fails, the failure propagates out of
`transformBufferWithEmotion` and out of the `playFile` call — it is not
swallowed — and the call returns no clip: the engine's last clip is left
unchanged and the busy flag is cleared by the `finally`. -/
theorem C6_decode_error_propagates
    (decode : List ℕ → Except DecodeError DecodedAudio) (bytes : List ℕ)
    (e : EmotionPreset) (err : DecodeError) (s : EngineState)
    (h : decode bytes = Except.error err) :
    transformBufferWithEmotion decode bytes e = Except.error err ∧
    playFileRun s true (transformBufferWithEmotion decode bytes e) =
      (Except.error err, { s with busy := false }) := by
  have ht : transformBufferWithEmotion decode bytes e = Except.error err := by
    unfold transformBufferWithEmotion
    rw [h]
    rfl
  refine ⟨ht, ?_⟩
  rw [ht]
  rfl

/-- A decode stub rejecting every byte sequence as unsupported. -/
def failingDecode : List ℕ → Except DecodeError DecodedAudio :=
  fun _ => Except.error DecodeError.unsupportedFormat

/-- Witness for C6: an unsupported upload makes the whole `playFile` call
settle with the decode error and an idle, clip-less engine. -/
theorem C6_witness :
    transformBufferWithEmotion failingDecode [] defaultPreset =
      Except.error DecodeError.unsupportedFormat ∧
    playFileRun initialEngine true
        (transformBufferWithEmotion failingDecode [] defaultPreset) =
      (Except.error DecodeError.unsupportedFormat,
        { initialEngine with busy := false }) :=
  C6_decode_error_propagates failingDecode [] defaultPreset
    DecodeError.unsupportedFormat initialEngine rfl

/-- C7: both `stop` and the natural end of playback cancel the per-frame
analyser loop and emit one final excitation of exactly zero, and a subsequent
analyser tick on the stopped engine reports nothing further. -/
theorem C7_stop_emits_zero (s : EngineState) (v : ℚ) :
    (stopEngine s).rafActive = false ∧
    (stopEngine s).emitted.head? = some 0 ∧
    analyserStep v (stopEngine s) = stopEngine s ∧
    (onSourceEnded s).rafActive = false ∧
    (onSourceEnded s).emitted.head? = some 0 ∧
    analyserStep v (onSourceEnded s) = onSourceEnded s := by
  refine ⟨rfl, rfl, ?_, rfl, rfl, ?_⟩ <;>
    simp [analyserStep, stopEngine, onSourceEnded, cancelAnalyser, emitAmplitude]

/-- C8 counterexample: the synthesizer does not clamp `browLift` to
`[-0.6, 1.2]` before use — with `browLift = 5` the brightness coefficient is
`clamp(0.55 + 5*0.2, 0.1, 1.2) = 1.2`, not the `0.79` that pre-clamping
would give. -/
theorem C8_counterexample :
    brightnessOf presetBrow5 ≠
      clampQ (55/100 + clampQ presetBrow5.browLift (-(60/100)) (120/100) * (20/100))
        (10/100) (120/100) := by
  have h1 : brightnessOf presetBrow5 = 120/100 := by
    unfold brightnessOf presetBrow5 clampQ
    rw [max_eq_right (by norm_num), min_eq_left (by norm_num)]
  have h2 : clampQ presetBrow5.browLift (-(60/100)) (120/100) = 120/100 := by
    unfold presetBrow5 clampQ
    rw [max_eq_right (by norm_num), min_eq_left (by norm_num)]
  rw [h1, h2, clampQ_of_mem (by norm_num) (by norm_num)]
  norm_num

/-- C8 (amended): the derived-variant constructor clamps every numeric field
to its documented range, while the synthesizer clamps only `tempoMultiplier`
to `[0.65, 1.45]` before use and instead clamps the derived quantities — the
per-character amplitude to `[0.05, 0.98]`, the brightness coefficient to
`[0.1, 1.2]` and the consonant noise to `[0.12, 0.45]` — consuming
`pitchShift`, `mouthIntensity`, `browLift` and `gestureIntensity` unclamped. -/
theorem C8_variant_clamped :
    (∀ (preset : EmotionPreset) (r1 r2 r3 r4 r5 : ℚ),
      (65/100 ≤ (createVariantEmotion preset r1 r2 r3 r4 r5).tempoMultiplier ∧
        (createVariantEmotion preset r1 r2 r3 r4 r5).tempoMultiplier ≤ 145/100) ∧
      (-6 ≤ (createVariantEmotion preset r1 r2 r3 r4 r5).pitchShift ∧
        (createVariantEmotion preset r1 r2 r3 r4 r5).pitchShift ≤ 6) ∧
      (35/100 ≤ (createVariantEmotion preset r1 r2 r3 r4 r5).gestureIntensity ∧
        (createVariantEmotion preset r1 r2 r3 r4 r5).gestureIntensity ≤ 140/100) ∧
      (40/100 ≤ (createVariantEmotion preset r1 r2 r3 r4 r5).mouthIntensity ∧
        (createVariantEmotion preset r1 r2 r3 r4 r5).mouthIntensity ≤ 140/100) ∧
      (-(60/100) ≤ (createVariantEmotion preset r1 r2 r3 r4 r5).browLift ∧
        (createVariantEmotion preset r1 r2 r3 r4 r5).browLift ≤ 120/100)) ∧
    (∀ e : EmotionPreset, 65/100 ≤ tempoOf e ∧ tempoOf e ≤ 145/100) ∧
    (∀ (e : EmotionPreset) (vowel : Bool),
      5/100 ≤ amplitudeOf e vowel ∧ amplitudeOf e vowel ≤ 98/100) ∧
    (∀ e : EmotionPreset, 10/100 ≤ brightnessOf e ∧ brightnessOf e ≤ 120/100) ∧
    (∀ e : EmotionPreset,
      12/100 ≤ consonantNoiseOf e ∧ consonantNoiseOf e ≤ 45/100) := by
  refine ⟨?_, tempoOf_mem, ?_, ?_, ?_⟩
  · intro preset r1 r2 r3 r4 r5
    unfold createVariantEmotion
    exact ⟨clampQ_mem _ (by norm_num), clampQ_mem _ (by norm_num),
      clampQ_mem _ (by norm_num), clampQ_mem _ (by norm_num),
      clampQ_mem _ (by norm_num)⟩
  · intro e vowel
    exact clampQ_mem _ (by norm_num)
  · intro e
    exact clampQ_mem _ (by norm_num)
  · intro e
    exact clampQ_mem _ (by norm_num)

/-- C9 counterexample: the silent gap is NOT inserted after each character —
for the one-word text "ab" under the default profile the second character
starts at `charSamples = 6174`, not at `charSamples + gap = 9878` as the
per-character-gap reading predicts. -/
theorem C9_counterexample :
    charStarts 44100 abText defaultPreset ≠
      charStartsPerCharGap 44100 abText defaultPreset := by
  have hn : normalizeText abText = abText := by decide
  unfold charStarts charStartsPerCharGap
  rw [hn, charSamplesOf_default, gapSamplesOf_default]
  decide

/-- C9 (amended): within a word consecutive characters are written back to
back `charSamples` apart; the gap of `floor(charDuration*sampleRate*0.6)`
samples is inserted once after each word (not after each character), so the
final cursor is total non-space characters times `charSamples` plus word
count times the gap; and every sample index actually written lies inside the
output buffer — positions beyond the buffer are skipped, with no wraparound. -/
theorem C9_word_gap_layout :
    (∀ (sr : ℕ) (text : List Char) (e : EmotionPreset),
      writtenIndices sr text e ⊆
        List.range (totalSamplesOf e sr (normalizeText text))) ∧
    (∀ (sr : ℕ) (text : List Char) (e : EmotionPreset),
      finalCursor sr text e =
        ((splitOnSpace (normalizeText text)).map List.length).sum *
            charSamplesOf e sr +
          (splitOnSpace (normalizeText text)).length * gapSamplesOf e sr) ∧
    (∀ (cs gap c : ℕ) (w : List Char),
      (runWords cs gap c [w]).1 =
        (List.range w.length).map (fun k => c + k * cs)) := by
  refine ⟨?_, ?_, runWords_single⟩
  · intro sr text e i hi
    unfold writtenIndices at hi
    rw [List.mem_flatMap] at hi
    obtain ⟨start, _, hw⟩ := hi
    unfold charWrites at hw
    rw [List.mem_filter] at hw
    rw [List.mem_range]
    simpa using hw.2
  · intro sr text e
    unfold finalCursor
    rw [runWords_final]
    omega

/-- Witness for C9 (amended) at the concrete two-character word. -/
theorem C9_witness :
    writtenIndices 44100 abText defaultPreset ⊆
      List.range (totalSamplesOf defaultPreset 44100 (normalizeText abText)) :=
  C9_word_gap_layout.1 44100 abText defaultPreset

/-- C10: every settled `speakText` or `playFile` call leaves the busy flag
cleared — the `finally` clears it on the throwing, rejecting and successful
paths alike — and the no-audio-context early return leaves the engine state
untouched, so a failed request never leaves the engine marked busy. -/
theorem C10_busy_cleared {ε : Type} (s : EngineState) (body : SpeakOutcome ε)
    (result : Except DecodeError LipSyncClip) :
    (speakTextRun s true body).2.busy = false ∧
    (playFileRun s true result).2.busy = false ∧
    (speakTextRun s false body).2 = s ∧
    (playFileRun s false result).2 = s := by
  refine ⟨?_, ?_, rfl, rfl⟩
  · cases body with
    | error err => rfl
    | ok clip => cases clip <;> rfl
  · cases result <;> rfl

end LipSync
